import Mathlib

/-!
Verification of the weilchain-counter repository: the MCP adapter server
(`mcp-server/src/main.rs`) and the `CounterApplet` exercised by
`tests/integration_test.rs`.  The adapter is embedded directly from the
Rust source; the `CounterApplet` implementation itself is not present in
the sources, so it is modelled from the specification.
-/

/-- Shallow model of `serde_json::Value`.  Numbers are split into
integer-valued numbers (`intNum`) and non-integer numbers (`fracNum`);
no operation in scope inspects the value of a non-integer number, only
whether `as_i64` succeeds, so `fracNum` carries no payload. -/
inductive Json where
  | null : Json
  | bool : Bool → Json
  | intNum : Int → Json
  | fracNum : Json
  | str : String → Json
  | arr : List Json → Json
  | obj : List (String × Json) → Json

/-- Model of `serde_json::Value::as_i64`: yields the number when it is an
integer in the signed 64-bit range, and `none` on every other value. -/
def Json.as_i64 : Json → Option Int
  | Json.intNum n => if -(2 ^ 63) ≤ n ∧ n < 2 ^ 63 then some n else none
  | _ => none

/-- Signed 64-bit wrap-around, the release-mode overflow semantics of
Rust `i64` addition (`explicit % 2^64` reduction to `[-2^63, 2^63)`). -/
def wrap64 (n : Int) : Int := (n + 2 ^ 63) % 2 ^ 64 - 2 ^ 63

/-- Rust `struct CounterTool` from `main.rs`. -/
structure CounterTool where
  name : String
  description : String
  parameters : Json

/-- Rust `struct ToolCall` from `main.rs`; the `HashMap<String, Value>`
of arguments is modelled as an association list with first-match lookup
(hash-map keys are unique, so first-match lookup agrees with it). -/
structure ToolCall where
  tool : String
  arguments : List (String × Json)

/-- Rust `struct ToolResponse` from `main.rs`. -/
structure ToolResponse where
  success : Bool
  result : Json
  message : String

/-- Rust `struct CounterMCPServer` from `main.rs`. -/
structure CounterMCPServer where
  applet_address : String

/-- `CounterMCPServer::new`. -/
def CounterMCPServer.new (applet_address : String) : CounterMCPServer :=
  ⟨applet_address⟩

/-- Private method `get_counter_value` of `CounterMCPServer`: the body
never touches `self`, it returns the hard-coded mock response. -/
def CounterMCPServer.get_counter_value (_s : CounterMCPServer) : ToolResponse :=
  ⟨true, Json.intNum 42, "Counter value retrieved successfully"⟩

/-- Private method `increment_counter` of `CounterMCPServer`. -/
def CounterMCPServer.increment_counter (_s : CounterMCPServer) : ToolResponse :=
  ⟨true, Json.intNum 43, "Counter incremented successfully"⟩

/-- Private method `decrement_counter` of `CounterMCPServer`. -/
def CounterMCPServer.decrement_counter (_s : CounterMCPServer) : ToolResponse :=
  ⟨true, Json.intNum 41, "Counter decremented successfully"⟩

/-- Private method `add_to_counter` of `CounterMCPServer`: the Rust body
computes `42 + value` on `i64`, hence the signed 64-bit wrap-around. -/
def CounterMCPServer.add_to_counter (_s : CounterMCPServer) (value : Int) : ToolResponse :=
  ⟨true, Json.intNum (wrap64 (42 + value)),
    "Added " ++ toString value ++ " to counter successfully"⟩

/-- Private method `set_counter_value` of `CounterMCPServer`. -/
def CounterMCPServer.set_counter_value (_s : CounterMCPServer) (value : Int) : ToolResponse :=
  ⟨true, Json.intNum value,
    "Counter set to " ++ toString value ++ " successfully"⟩

/-- Private method `reset_counter` of `CounterMCPServer`. -/
def CounterMCPServer.reset_counter (_s : CounterMCPServer) : ToolResponse :=
  ⟨true, Json.intNum 0, "Counter reset to 0 successfully"⟩

/-- `CounterMCPServer::execute_tool`.  The Rust `match` on the tool name
is rendered as the equivalent chain of string comparisons; the `value`
argument extraction is `arguments.get("value").and_then(as_i64).unwrap_or(0)`. -/
def CounterMCPServer.execute_tool (s : CounterMCPServer) (call : ToolCall) : ToolResponse :=
  if call.tool = "get_counter_value" then s.get_counter_value
  else if call.tool = "increment_counter" then s.increment_counter
  else if call.tool = "decrement_counter" then s.decrement_counter
  else if call.tool = "add_to_counter" then
    s.add_to_counter (((call.arguments.lookup "value").bind Json.as_i64).getD 0)
  else if call.tool = "set_counter_value" then
    s.set_counter_value (((call.arguments.lookup "value").bind Json.as_i64).getD 0)
  else if call.tool = "reset_counter" then s.reset_counter
  else ⟨false, Json.null, "Unknown tool: " ++ call.tool⟩

/-- `CounterMCPServer::get_tools`: the catalog of six tools with their
JSON-schema parameter descriptions, embedded verbatim from `main.rs`. -/
def CounterMCPServer.get_tools (_s : CounterMCPServer) : List CounterTool :=
  [ ⟨"get_counter_value", "Get the current value of the counter",
      Json.obj [("type", Json.str "object"),
                ("properties", Json.obj []),
                ("required", Json.arr [])]⟩,
    ⟨"increment_counter", "Increment the counter by 1",
      Json.obj [("type", Json.str "object"),
                ("properties", Json.obj []),
                ("required", Json.arr [])]⟩,
    ⟨"decrement_counter", "Decrement the counter by 1",
      Json.obj [("type", Json.str "object"),
                ("properties", Json.obj []),
                ("required", Json.arr [])]⟩,
    ⟨"add_to_counter", "Add a specific value to the counter",
      Json.obj [("type", Json.str "object"),
                ("properties", Json.obj
                  [("value", Json.obj
                    [("type", Json.str "integer"),
                     ("description", Json.str "The value to add to the counter")])]),
                ("required", Json.arr [Json.str "value"])]⟩,
    ⟨"set_counter_value", "Set the counter to a specific value",
      Json.obj [("type", Json.str "object"),
                ("properties", Json.obj
                  [("value", Json.obj
                    [("type", Json.str "integer"),
                     ("description", Json.str "The value to set the counter to")])]),
                ("required", Json.arr [Json.str "value"])]⟩,
    ⟨"reset_counter", "Reset the counter to 0",
      Json.obj [("type", Json.str "object"),
                ("properties", Json.obj []),
                ("required", Json.arr [])]⟩ ]

/-- Tests whether a JSON value is the string `"object"`. -/
def isTypeObjectStr : Json → Bool
  | Json.str s => s == "object"
  | _ => false

/-- Tests whether a tool's `parameters` field is a JSON-schema-style
object description, i.e. a JSON object whose `type` field is `"object"`. -/
def isSchemaObj : Json → Bool
  | Json.obj fields => fields.any (fun f => f.1 == "type" && isTypeObjectStr f.2)
  | _ => false

/-- The `required` list of a JSON-schema parameter description. -/
def requiredOf : Json → Option Json
  | Json.obj fields => fields.lookup "required"
  | _ => none

/-- Modelled from the spec: the `CounterApplet` implementation (crate
`counter_applet`) is not among the sources, only its integration tests
are.  Per the spec's data model it is a mutable `count` (signed integer,
"unbounded in the source", "no range restriction") together with an
`owner` string fixed at construction. -/
structure CounterApplet where
  count : Int
  owner : String

/-- Modelled from the spec: `CounterApplet::new(owner)` starts at count 0
(the spec's testable property for a fresh counter). -/
def CounterApplet.new (owner : String) : CounterApplet :=
  ⟨0, owner⟩

/-- Modelled from the spec: `get_count` returns the current count. -/
def CounterApplet.get_count (c : CounterApplet) : Int := c.count

/-- Modelled from the spec: `get_owner` returns the owner string. -/
def CounterApplet.get_owner (c : CounterApplet) : String := c.owner

/-- Modelled from the spec: `increment` does `count += 1` and returns the
new count.  Rust's in-place mutation is rendered as state passing: the
pair is (returned value, counter after the call). -/
def CounterApplet.increment (c : CounterApplet) : Int × CounterApplet :=
  (c.count + 1, ⟨c.count + 1, c.owner⟩)

/-- Modelled from the spec: `decrement` does `count -= 1` and returns the
new count. -/
def CounterApplet.decrement (c : CounterApplet) : Int × CounterApplet :=
  (c.count - 1, ⟨c.count - 1, c.owner⟩)

/-- Modelled from the spec: `add(v)` does `count += v` and returns the
new count. -/
def CounterApplet.add (c : CounterApplet) (v : Int) : Int × CounterApplet :=
  (c.count + v, ⟨c.count + v, c.owner⟩)

/-- Modelled from the spec: `set_count(v)` does `count = v` and returns
the new count. -/
def CounterApplet.set_count (c : CounterApplet) (v : Int) : Int × CounterApplet :=
  (v, ⟨v, c.owner⟩)

/-- Modelled from the spec: `reset` does `count = 0` and returns 0. -/
def CounterApplet.reset (c : CounterApplet) : Int × CounterApplet :=
  (0, ⟨0, c.owner⟩)

/-- Modelled from the spec: `get_state` produces the structured
serialization of the counter, with exactly the two fields `count` and
`owner`. -/
def CounterApplet.get_state (c : CounterApplet) : Json :=
  Json.obj [("count", Json.intNum c.count), ("owner", Json.str c.owner)]

/-- Modelled from the spec: the compact JSON-like textual rendering of
`get_state` (the string the integration test inspects with `contains`). -/
def CounterApplet.render_state (c : CounterApplet) : String :=
  "\x7b" ++ "\"count\":" ++ toString c.count ++ "," ++ "\"owner\":" ++
    "\"" ++ c.owner ++ "\"" ++ "\x7d"

/-- One Counter operation, for reasoning about arbitrary sequences of
operations applied to a `CounterApplet`. -/
inductive CounterOp where
  | increment : CounterOp
  | decrement : CounterOp
  | add : Int → CounterOp
  | set_count : Int → CounterOp
  | reset : CounterOp

/-- Applies one operation (discarding the returned count). -/
def CounterApplet.applyOp (c : CounterApplet) : CounterOp → CounterApplet
  | CounterOp.increment => c.increment.2
  | CounterOp.decrement => c.decrement.2
  | CounterOp.add v => (c.add v).2
  | CounterOp.set_count v => (c.set_count v).2
  | CounterOp.reset => c.reset.2

/-- Applies a sequence of operations from left to right. -/
def CounterApplet.applyOps (c : CounterApplet) (ops : List CounterOp) : CounterApplet :=
  ops.foldl CounterApplet.applyOp c

/-- Owner preservation for a single operation. -/
theorem CounterApplet.owner_applyOp (c : CounterApplet) (op : CounterOp) :
    (c.applyOp op).owner = c.owner := by
  cases op <;> rfl

/-- Owner preservation for an arbitrary sequence of operations. -/
theorem CounterApplet.owner_applyOps (c : CounterApplet) (ops : List CounterOp) :
    (c.applyOps ops).owner = c.owner := by
  induction ops generalizing c with
  | nil => rfl
  | cons op ops ih =>
    show ((c.applyOp op).applyOps ops).owner = c.owner
    rw [ih, CounterApplet.owner_applyOp]

/-- Claim C1 is false as stated: `add_to_counter` does not always yield
`42 + v`.  At `value = 2^63 - 1` (the largest `i64`), the `i64` addition
`42 + value` overflows and wraps, so the result differs from the exact
integer `42 + (2^63 - 1)`. -/
theorem C1_add_overflow_cex :
    ((CounterMCPServer.new "addr2").execute_tool
        ⟨"add_to_counter", [("value", Json.intNum (2 ^ 63 - 1))]⟩).result ≠
      Json.intNum (42 + (2 ^ 63 - 1)) := by
  have h1 : ((CounterMCPServer.new "addr2").execute_tool
      ⟨"add_to_counter", [("value", Json.intNum (2 ^ 63 - 1))]⟩).result =
      Json.intNum (wrap64 (42 + (2 ^ 63 - 1))) := rfl
  rw [h1]
  intro hval
  exact absurd (Json.intNum.inj hval) (by decide)

/-- Claim C1 (amended): for every ToolCall whose tool field is one of the
six recognized names, `execute_tool` returns `success = true` with a
hard-coded mock result never obtained from any Counter: get_counter_value
yields 42, increment_counter 43, decrement_counter 41, add_to_counter
with argument `v` yields `42 + v` reduced by signed 64-bit wrap-around
(equal to `42 + v` whenever that sum is in the i64 range),
set_counter_value with argument `v` yields `v`, and reset_counter 0. -/
theorem C1_recognized_tools_mock_responses
    (s : CounterMCPServer) (args : List (String × Json)) (v : Int)
    (h : (args.lookup "value").bind Json.as_i64 = some v) :
    s.execute_tool ⟨"get_counter_value", args⟩ =
      ⟨true, Json.intNum 42, "Counter value retrieved successfully"⟩ ∧
    s.execute_tool ⟨"increment_counter", args⟩ =
      ⟨true, Json.intNum 43, "Counter incremented successfully"⟩ ∧
    s.execute_tool ⟨"decrement_counter", args⟩ =
      ⟨true, Json.intNum 41, "Counter decremented successfully"⟩ ∧
    (s.execute_tool ⟨"add_to_counter", args⟩).success = true ∧
    (s.execute_tool ⟨"add_to_counter", args⟩).result = Json.intNum (wrap64 (42 + v)) ∧
    (s.execute_tool ⟨"set_counter_value", args⟩).success = true ∧
    (s.execute_tool ⟨"set_counter_value", args⟩).result = Json.intNum v ∧
    s.execute_tool ⟨"reset_counter", args⟩ =
      ⟨true, Json.intNum 0, "Counter reset to 0 successfully"⟩ ∧
    (-(2 ^ 63) ≤ 42 + v → 42 + v < 2 ^ 63 → wrap64 (42 + v) = 42 + v) := by
  have ha : s.execute_tool ⟨"add_to_counter", args⟩ = s.add_to_counter v := by
    show s.add_to_counter (((args.lookup "value").bind Json.as_i64).getD 0) = _
    rw [h]
    rfl
  have hs : s.execute_tool ⟨"set_counter_value", args⟩ = s.set_counter_value v := by
    show s.set_counter_value (((args.lookup "value").bind Json.as_i64).getD 0) = _
    rw [h]
    rfl
  refine ⟨rfl, rfl, rfl, ?_, ?_, ?_, ?_, rfl, ?_⟩
  · rw [ha]
    rfl
  · rw [ha]
    rfl
  · rw [hs]
    rfl
  · rw [hs]
    rfl
  · intro hlo hhi
    simp only [wrap64]
    omega

/-- Witness for C1 at `value = 5`: the add result is `42 + 5 = 47`. -/
theorem C1_recognized_tools_mock_responses_witness :
    ((([("value", Json.intNum 5)] : List (String × Json)).lookup "value").bind
        Json.as_i64 = some 5) ∧
    ((CounterMCPServer.new "addr").execute_tool
        ⟨"add_to_counter", [("value", Json.intNum 5)]⟩).result = Json.intNum 47 := by
  have h := C1_recognized_tools_mock_responses (CounterMCPServer.new "addr")
    [("value", Json.intNum 5)] 5 rfl
  refine ⟨rfl, ?_⟩
  rw [h.2.2.2.2.1]
  show Json.intNum (wrap64 47) = Json.intNum 47
  norm_num [wrap64]

/-- Claim C2: for every ToolCall whose tool field is not one of the six
recognized names, `execute_tool` returns `success = false`, a null
result, and a message containing the unrecognized tool name; every
recognized name yields `success = true`, so this is the adapter's only
failing response, and it is returned as a value (the embedding is a
total function, so nothing is ever raised). -/
theorem C2_unknown_tool_failure (s : CounterMCPServer) (call : ToolCall)
    (h : call.tool ∉ ["get_counter_value", "increment_counter", "decrement_counter",
      "add_to_counter", "set_counter_value", "reset_counter"]) :
    s.execute_tool call = ⟨false, Json.null, "Unknown tool: " ++ call.tool⟩ ∧
    (∃ p q, (s.execute_tool call).message = p ++ call.tool ++ q) ∧
    (∀ call2 : ToolCall, call2.tool ∈ ["get_counter_value", "increment_counter",
      "decrement_counter", "add_to_counter", "set_counter_value", "reset_counter"] →
      (s.execute_tool call2).success = true) := by
  cases call with
  | mk tool args =>
    simp only [List.mem_cons, List.not_mem_nil, or_false, not_or] at h
    obtain ⟨h1, h2, h3, h4, h5, h6⟩ := h
    have he : CounterMCPServer.execute_tool s ⟨tool, args⟩ =
        ⟨false, Json.null, "Unknown tool: " ++ tool⟩ := by
      simp [CounterMCPServer.execute_tool, h1, h2, h3, h4, h5, h6]
    refine ⟨he, ⟨"Unknown tool: ", "", ?_⟩, ?_⟩
    · rw [he]
      show "Unknown tool: " ++ tool = "Unknown tool: " ++ tool ++ ""
      rw [String.append_empty]
    · intro call2 hc2
      cases call2 with
      | mk t2 a2 =>
        simp only [List.mem_cons, List.not_mem_nil, or_false] at hc2
        rcases hc2 with rfl | rfl | rfl | rfl | rfl | rfl <;> rfl

/-- Witness for C2 at the unrecognized tool name `"foo"`. -/
theorem C2_unknown_tool_failure_witness :
    (("foo" : String) ∉ ["get_counter_value", "increment_counter", "decrement_counter",
      "add_to_counter", "set_counter_value", "reset_counter"]) ∧
    (CounterMCPServer.new "addr3").execute_tool ⟨"foo", []⟩ =
      ⟨false, Json.null, "Unknown tool: foo"⟩ := by
  have h := C2_unknown_tool_failure (CounterMCPServer.new "addr3") ⟨"foo", []⟩ (by decide)
  refine ⟨by decide, ?_⟩
  rw [h.1]
  rfl

/-- Claim C3: dispatching `add_to_counter` or `set_counter_value` with no
`"value"` entry in the arguments behaves exactly as if the value 0 had
been supplied: `add_to_counter` returns result 42 and `set_counter_value`
returns result 0, both with `success = true`. -/
theorem C3_missing_value_defaults_zero (s : CounterMCPServer)
    (args : List (String × Json)) (h : args.lookup "value" = none) :
    s.execute_tool ⟨"add_to_counter", args⟩ =
      s.execute_tool ⟨"add_to_counter", [("value", Json.intNum 0)]⟩ ∧
    s.execute_tool ⟨"set_counter_value", args⟩ =
      s.execute_tool ⟨"set_counter_value", [("value", Json.intNum 0)]⟩ ∧
    (s.execute_tool ⟨"add_to_counter", args⟩).success = true ∧
    (s.execute_tool ⟨"add_to_counter", args⟩).result = Json.intNum 42 ∧
    (s.execute_tool ⟨"set_counter_value", args⟩).success = true ∧
    (s.execute_tool ⟨"set_counter_value", args⟩).result = Json.intNum 0 := by
  have ha : s.execute_tool ⟨"add_to_counter", args⟩ = s.add_to_counter 0 := by
    show s.add_to_counter (((args.lookup "value").bind Json.as_i64).getD 0) = _
    rw [h]
    rfl
  have hs : s.execute_tool ⟨"set_counter_value", args⟩ = s.set_counter_value 0 := by
    show s.set_counter_value (((args.lookup "value").bind Json.as_i64).getD 0) = _
    rw [h]
    rfl
  refine ⟨?_, ?_, ?_, ?_, ?_, ?_⟩
  · rw [ha]
    rfl
  · rw [hs]
    rfl
  · rw [ha]
    rfl
  · rw [ha]
    show Json.intNum (wrap64 (42 + 0)) = Json.intNum 42
    norm_num [wrap64]
  · rw [hs]
    rfl
  · rw [hs]
    rfl

/-- Witness for C3 at an empty arguments mapping. -/
theorem C3_missing_value_defaults_zero_witness :
    (([] : List (String × Json)).lookup "value" = none) ∧
    ((CounterMCPServer.new "addr4").execute_tool ⟨"add_to_counter", []⟩).result =
      Json.intNum 42 ∧
    ((CounterMCPServer.new "addr4").execute_tool ⟨"set_counter_value", []⟩).result =
      Json.intNum 0 := by
  have h := C3_missing_value_defaults_zero (CounterMCPServer.new "addr4") [] rfl
  exact ⟨rfl, h.2.2.2.1, h.2.2.2.2.2⟩

/-- Claim C4: `get_tools` always returns exactly six tools whose names
are, in order, get_counter_value, increment_counter, decrement_counter,
add_to_counter, set_counter_value, reset_counter, each carrying a
JSON-schema-style parameter description (an object whose `type` field is
`"object"`). -/
theorem C4_get_tools_catalog (s : CounterMCPServer) :
    (s.get_tools).map CounterTool.name =
      ["get_counter_value", "increment_counter", "decrement_counter",
       "add_to_counter", "set_counter_value", "reset_counter"] ∧
    (s.get_tools).length = 6 ∧
    (s.get_tools).all (fun t => isSchemaObj t.parameters) = true :=
  ⟨rfl, rfl, rfl⟩

/-- Claim C5: for every Counter state `s` and every signed integer `v`
(including negative `v` and negative results), `add(v)` applied in state
`s` returns `s + v` and leaves the counter's count equal to `s + v`. -/
theorem C5_add_from_state (w : String) (s v : Int) :
    ((CounterApplet.mk s w).add v).1 = s + v ∧
    ((CounterApplet.mk s w).add v).2.get_count = s + v :=
  ⟨rfl, rfl⟩

/-- Claim C6: every mutating Counter operation returns the resulting
count, i.e. the value `get_count` returns immediately afterwards:
increment returns count + 1, decrement count - 1, add(v) count + v,
set_count(v) returns v, and reset returns 0. -/
theorem C6_mutators_return_new_count (c : CounterApplet) (v : Int) :
    (c.increment.1 = c.get_count + 1 ∧ c.increment.2.get_count = c.increment.1) ∧
    (c.decrement.1 = c.get_count - 1 ∧ c.decrement.2.get_count = c.decrement.1) ∧
    ((c.add v).1 = c.get_count + v ∧ (c.add v).2.get_count = (c.add v).1) ∧
    ((c.set_count v).1 = v ∧ (c.set_count v).2.get_count = (c.set_count v).1) ∧
    (c.reset.1 = 0 ∧ c.reset.2.get_count = c.reset.1) :=
  ⟨⟨rfl, rfl⟩, ⟨rfl, rfl⟩, ⟨rfl, rfl⟩, ⟨rfl, rfl⟩, ⟨rfl, rfl⟩⟩

/-- Claim C7: for every Counter constructed with owner `w` and every
sequence of operations applied to it, `get_owner` returns `w` and no
operation changes the `owner` field; only `count` is ever mutated. -/
theorem C7_owner_immutable (w : String) (ops : List CounterOp) :
    ((CounterApplet.new w).applyOps ops).get_owner = w ∧
    ((CounterApplet.new w).applyOps ops).owner = w := by
  have h := CounterApplet.owner_applyOps (CounterApplet.new w) ops
  exact ⟨h, h⟩

/-- Claim C8: for every Counter with count `n` and owner `w`,
`get_state` contains exactly the two fields `count` and `owner`, and the
textual rendering contains the substrings `"count":n` and
`"owner":"w"`. -/
theorem C8_get_state_fields_and_rendering (c : CounterApplet) :
    c.get_state =
      Json.obj [("count", Json.intNum c.get_count), ("owner", Json.str c.get_owner)] ∧
    (∃ p q, c.render_state = p ++ ("\"count\":" ++ toString c.get_count) ++ q) ∧
    (∃ p q, c.render_state =
      p ++ ("\"owner\":" ++ ("\"" ++ c.get_owner ++ "\"")) ++ q) := by
  refine ⟨rfl, ?_, ?_⟩
  · refine ⟨"\x7b", "," ++ "\"owner\":" ++ "\"" ++ c.owner ++ "\"" ++ "\x7d", ?_⟩
    simp only [CounterApplet.render_state, CounterApplet.get_count, String.append_assoc]
  · refine ⟨"\x7b" ++ "\"count\":" ++ toString c.count ++ ",", "\x7d", ?_⟩
    simp only [CounterApplet.render_state, CounterApplet.get_owner, String.append_assoc]

/-- Claim C9: a `"value"` argument that is present but not representable
as a signed 64-bit integer is treated exactly as if absent: extraction
yields 0 and the call still succeeds — even though the declared schema
lists `"value"` as required for both `add_to_counter` and
`set_counter_value`. -/
theorem C9_non_i64_value_defaults_zero (s : CounterMCPServer)
    (args : List (String × Json)) (j : Json)
    (h1 : args.lookup "value" = some j) (h2 : Json.as_i64 j = none) :
    s.execute_tool ⟨"add_to_counter", args⟩ = s.execute_tool ⟨"add_to_counter", []⟩ ∧
    s.execute_tool ⟨"set_counter_value", args⟩ =
      s.execute_tool ⟨"set_counter_value", []⟩ ∧
    (s.execute_tool ⟨"add_to_counter", args⟩).success = true ∧
    (s.execute_tool ⟨"set_counter_value", args⟩).success = true ∧
    (s.get_tools).map (fun t => (t.name, requiredOf t.parameters)) =
      [("get_counter_value", some (Json.arr [])),
       ("increment_counter", some (Json.arr [])),
       ("decrement_counter", some (Json.arr [])),
       ("add_to_counter", some (Json.arr [Json.str "value"])),
       ("set_counter_value", some (Json.arr [Json.str "value"])),
       ("reset_counter", some (Json.arr []))] := by
  have hnone : (args.lookup "value").bind Json.as_i64 = none := by
    rw [h1]
    exact h2
  have ha : s.execute_tool ⟨"add_to_counter", args⟩ = s.add_to_counter 0 := by
    show s.add_to_counter (((args.lookup "value").bind Json.as_i64).getD 0) = _
    rw [hnone]
    rfl
  have hs : s.execute_tool ⟨"set_counter_value", args⟩ = s.set_counter_value 0 := by
    show s.set_counter_value (((args.lookup "value").bind Json.as_i64).getD 0) = _
    rw [hnone]
    rfl
  refine ⟨?_, ?_, ?_, ?_, rfl⟩
  · rw [ha]
    rfl
  · rw [hs]
    rfl
  · rw [ha]
    rfl
  · rw [hs]
    rfl

/-- Witness for C9 at the non-numeric argument `"value" = "one"`. -/
theorem C9_non_i64_value_defaults_zero_witness :
    (([("value", Json.str "one")] : List (String × Json)).lookup "value" =
      some (Json.str "one")) ∧
    Json.as_i64 (Json.str "one") = none ∧
    ((CounterMCPServer.new "addr5").execute_tool
        ⟨"add_to_counter", [("value", Json.str "one")]⟩).success = true ∧
    ((CounterMCPServer.new "addr5").execute_tool
        ⟨"set_counter_value", [("value", Json.str "one")]⟩).success = true := by
  have h := C9_non_i64_value_defaults_zero (CounterMCPServer.new "addr5")
    [("value", Json.str "one")] (Json.str "one") rfl rfl
  exact ⟨rfl, rfl, h.2.2.1, h.2.2.2.1⟩

/-- Claim C10: the `applet_address` never influences any response: for
any two address strings and equal tool calls, `execute_tool` returns
identical responses (and, being a function of its arguments, it is
deterministic). -/
theorem C10_applet_address_irrelevant (a1 a2 : String) (c1 c2 : ToolCall)
    (h : c1 = c2) :
    (CounterMCPServer.new a1).execute_tool c1 =
      (CounterMCPServer.new a2).execute_tool c2 := by
  subst h
  cases c1 with
  | mk tool args =>
    simp only [CounterMCPServer.execute_tool]
    repeat' split
    all_goals rfl

/-- Witness for C10 at two distinct addresses and an increment call. -/
theorem C10_applet_address_irrelevant_witness :
    ((⟨"increment_counter", []⟩ : ToolCall) = ⟨"increment_counter", []⟩) ∧
    (CounterMCPServer.new "addr_a").execute_tool ⟨"increment_counter", []⟩ =
      (CounterMCPServer.new "addr_b").execute_tool ⟨"increment_counter", []⟩ :=
  ⟨rfl, C10_applet_address_irrelevant "addr_a" "addr_b" _ _ rfl⟩
